import Mathlib

/-!
Verification of the Astro application lifecycle orchestrator.

Shallow embedding of the Go sources:
  - `internal/k8s` adapter (ClientGoAdapter): namespace handling, workload
    creation/deletion/scaling, status derivation, log fetching;
  - `internal/repository` (AppRepository): record store operations;
  - `internal/service` (AppService): lifecycle commands and the best-effort
    status reconciler `syncAppStatus`.

The record store is modelled as a list of application records with a fresh-id
counter; cluster calls and fallible store calls take their outcomes as
explicit parameters, and every lifecycle command additionally returns the
trace of external calls it issued, in order, so that ordering properties
(persist-before-cluster, cluster-delete-before-record-delete, the replica
target handed to the scale call) can be stated directly.
-/

namespace Astro

/-- A persisted application record (`model.App`): id, name, image, desired
replica count, status string, owning user id and derived namespace. -/
structure App where
  id : Nat
  name : String
  image : String
  replicas : Nat
  status : String
  userID : Nat
  nspace : String
  deriving Repr, DecidableEq

/-- The cluster-side workload object (the Deployment fields the adapter
reads): the desired replica pointer (`Spec.Replicas`, which may be nil) and
the ready replica count (`Status.ReadyReplicas`). -/
structure Deployment where
  specReplicas : Option Nat
  readyReplicas : Nat
  deriving Repr, DecidableEq

/-- One member process summary (`k8s.PodInfo`), with its captured log lines
added so that log fetching can be evaluated. -/
structure PodC where
  name : String
  phase : String
  ready : Bool
  log : List String
  deriving Repr, DecidableEq

/-- The adapter's observed status (`k8s.AppStatus`). -/
structure AppStatus where
  status : String
  readyReplicas : Nat
  replicas : Nat
  pods : List (String × String × Bool)
  deriving Repr, DecidableEq

/-- Status derivation (`ClientGoAdapter.determineStatus`): nil or zero
desired replicas dominate and give `stopped`; then ready = desired gives
`running`; then ready = 0 gives `pending`; otherwise `starting`. -/
def determineStatus (d : Deployment) : String :=
  match d.specReplicas with
  | none => "stopped"
  | some dr =>
    if dr = 0 then "stopped"
    else if d.readyReplicas = dr then "running"
    else if d.readyReplicas = 0 then "pending"
    else "starting"

/-- The persisted record store (`AppRepository` over its database),
modelled as the list of live records plus the next fresh primary key.
Soft deletion is modelled as removal, since every repository query
excludes soft-deleted rows. -/
structure DB where
  apps : List App
  nextId : Nat
  deriving Repr, DecidableEq

/-- `AppRepository.Create`: insert a record under a fresh primary key. -/
def dbCreate (db : DB) (a : App) : DB :=
  { apps := db.apps ++ [{ a with id := db.nextId }], nextId := db.nextId + 1 }

/-- `AppRepository.Delete`: remove the record with the given id. -/
def dbDelete (db : DB) (id : Nat) : DB :=
  { db with apps := db.apps.filter (fun a => !(a.id == id)) }

/-- `AppRepository.GetByID`. -/
def dbGetByID (db : DB) (id : Nat) : Option App :=
  db.apps.find? (fun a => a.id == id)

/-- `AppRepository.GetByUserAndName`. -/
def dbGetByUserAndName (db : DB) (uid : Nat) (nm : String) : Option App :=
  db.apps.find? (fun a => a.userID == uid && a.name == nm)

/-- `AppRepository.GetByUserID`. -/
def dbGetByUserID (db : DB) (uid : Nat) : List App :=
  db.apps.filter (fun a => a.userID == uid)

/-- `AppRepository.UpdateStatus`: partial update of the status column of
every row matching the id. -/
def dbUpdateStatus (db : DB) (id : Nat) (st : String) : DB :=
  { db with apps := db.apps.map (fun a => if a.id == id then { a with status := st } else a) }

/-- `AppRepository.UpdateReplicas`: partial update of the replicas column. -/
def dbUpdateReplicas (db : DB) (id : Nat) (n : Nat) : DB :=
  { db with apps := db.apps.map (fun a => if a.id == id then { a with replicas := n } else a) }

/-- Well-formedness maintained by the store: every live id is below the
fresh-id counter. -/
def DB.wf (db : DB) : Prop :=
  ∀ a ∈ db.apps, a.id < db.nextId

instance (db : DB) : Decidable db.wf := by
  unfold DB.wf; infer_instance

/-- `AppService.syncAppStatus` (the StatusReconciler): given the outcome of
the adapter's status query, absorb any query error without touching the
store; on success overwrite the status column unconditionally and the
replicas column only when the observed replica count is positive. The
function has no error result: no failure is surfaced. -/
def syncAppStatus (db : DB) (appID : Nat) (q : Except Unit AppStatus) : DB :=
  match q with
  | .error _ => db
  | .ok st =>
    let db1 := dbUpdateStatus db appID st.status
    if st.replicas > 0 then dbUpdateReplicas db1 appID st.replicas else db1

/-- Typed service errors (`pkg/errcode` as used by `AppService`): duplicate
name, record-store failure, missing record, ownership mismatch, cluster
operation failure, and the wrapped cluster error of a failed create. -/
inductive Err where
  | appExists
  | database (msg : String)
  | appNotFound
  | forbidden
  | k8sOperation (msg : String)
  | appCreateFailed (msg : String)
  deriving Repr, DecidableEq

/-- The workload spec handed to the adapter (`k8s.AppSpec`). -/
structure AppSpec where
  name : String
  nspace : String
  image : String
  replicas : Nat
  port : Nat
  deriving Repr, DecidableEq

/-- One external call issued by a lifecycle command, in order: record-store
calls and cluster calls. -/
inductive Ev where
  | dbGetByUserAndNameEv (uid : Nat) (nm : String)
  | dbCreateEv (a : App)
  | dbDeleteEv (id : Nat)
  | dbGetByIDEv (id : Nat)
  | dbUpdateStatusEv (id : Nat) (st : String)
  | dbUpdateReplicasEv (id : Nat) (n : Nat)
  | clCreateApp (spec : AppSpec)
  | clDeleteApp (nm ns : String)
  | clScaleApp (nm ns : String) (n : Nat)
  | clRestart (nm ns : String)
  | clGetStatus (nm ns : String)
  deriving Repr, DecidableEq

/-- `service.CreateAppRequest`. -/
structure CreateAppRequest where
  name : String
  image : String
  replicas : Nat
  port : Nat
  userID : Nat
  deriving Repr, DecidableEq

/-- The record literal `AppService.CreateApp` persists before touching the
cluster: status is `pending`, namespace is derived from the owner id. -/
def createRecord (req : CreateAppRequest) (id : Nat) : App :=
  { id := id, name := req.name, image := req.image, replicas := req.replicas,
    status := "pending", userID := req.userID,
    nspace := "astro-user-" ++ toString req.userID }

/-- The spec literal `AppService.CreateApp` hands to the adapter. -/
def createSpec (req : CreateAppRequest) : AppSpec :=
  { name := req.name, nspace := "astro-user-" ++ toString req.userID,
    image := req.image, replicas := req.replicas, port := req.port }

/-- `AppService.getAppWithPermission`: load by id (a store read that can
itself fail, modelled by `readOk`), map a missing row to NotFound and an
ownership mismatch to Forbidden. -/
def getAppWithPermission (db : DB) (readOk : Bool) (appID userID : Nat) :
    Except Err App :=
  if readOk then
    match dbGetByID db appID with
    | none => .error .appNotFound
    | some app => if app.userID = userID then .ok app else .error .forbidden
  else .error (.database "read")

/-- `AppService.CreateApp`: duplicate check, persist the pending record,
then ask the cluster to create the workload; when that fails, delete the
just-written record and return the wrapped cluster error. `readOk` is the
outcome of the duplicate-check read, `clusterOk` the outcome of the
adapter's create. The fire-and-forget reconciliation spawned on success is
not part of the synchronous run. Returns the new store, the result and the
trace of external calls. -/
def CreateApp (db : DB) (req : CreateAppRequest) (readOk clusterOk : Bool) :
    DB × Except Err App × List Ev :=
  if readOk then
    match dbGetByUserAndName db req.userID req.name with
    | some _ => (db, .error .appExists, [.dbGetByUserAndNameEv req.userID req.name])
    | none =>
      let app := createRecord req db.nextId
      let db1 := dbCreate db app
      if clusterOk then
        (db1, .ok app,
          [.dbGetByUserAndNameEv req.userID req.name, .dbCreateEv app,
           .clCreateApp (createSpec req)])
      else
        (dbDelete db1 app.id, .error (.appCreateFailed "cluster"),
          [.dbGetByUserAndNameEv req.userID req.name, .dbCreateEv app,
           .clCreateApp (createSpec req), .dbDeleteEv app.id])
  else (db, .error (.database "read"), [.dbGetByUserAndNameEv req.userID req.name])

/-- `AppService.DeleteApp`: load and check ownership, delete the cluster
resources, and only on cluster success delete the record (`delOk` is the
outcome of that final store delete). On cluster failure the store is left
untouched. -/
def DeleteApp (db : DB) (appID userID : Nat) (readOk clusterOk delOk : Bool) :
    DB × Except Err Unit × List Ev :=
  match getAppWithPermission db readOk appID userID with
  | .error e => (db, .error e, [.dbGetByIDEv appID])
  | .ok app =>
    if clusterOk then
      if delOk then
        (dbDelete db appID, .ok (),
          [.dbGetByIDEv appID, .clDeleteApp app.name app.nspace, .dbDeleteEv appID])
      else
        (db, .error (.database "delete"),
          [.dbGetByIDEv appID, .clDeleteApp app.name app.nspace, .dbDeleteEv appID])
    else
      (db, .error (.k8sOperation "delete"),
        [.dbGetByIDEv appID, .clDeleteApp app.name app.nspace])

/-- `AppService.StartApp`: scale the workload to the persisted desired
count, or to 1 when that count is 0; on scale success optimistically write
status `starting`, discarding any failure of that write (`updOk`), and
report success. -/
def StartApp (db : DB) (appID userID : Nat) (readOk scaleOk updOk : Bool) :
    DB × Except Err Unit × List Ev :=
  match getAppWithPermission db readOk appID userID with
  | .error e => (db, .error e, [.dbGetByIDEv appID])
  | .ok app =>
    let target := if app.replicas = 0 then 1 else app.replicas
    if scaleOk then
      ((if updOk then dbUpdateStatus db appID "starting" else db), .ok (),
        [.dbGetByIDEv appID, .clScaleApp app.name app.nspace target,
         .dbUpdateStatusEv appID "starting"])
    else
      (db, .error (.k8sOperation "scale"),
        [.dbGetByIDEv appID, .clScaleApp app.name app.nspace target])

/-- `AppService.StopApp`: scale the workload to 0, then write status
`stopped` and replicas 0, discarding any failure of either write. -/
def StopApp (db : DB) (appID userID : Nat)
    (readOk scaleOk updStOk updRepOk : Bool) :
    DB × Except Err Unit × List Ev :=
  match getAppWithPermission db readOk appID userID with
  | .error e => (db, .error e, [.dbGetByIDEv appID])
  | .ok app =>
    if scaleOk then
      let db1 := if updStOk then dbUpdateStatus db appID "stopped" else db
      let db2 := if updRepOk then dbUpdateReplicas db1 appID 0 else db1
      (db2, .ok (),
        [.dbGetByIDEv appID, .clScaleApp app.name app.nspace 0,
         .dbUpdateStatusEv appID "stopped", .dbUpdateReplicasEv appID 0])
    else
      (db, .error (.k8sOperation "scale"),
        [.dbGetByIDEv appID, .clScaleApp app.name app.nspace 0])

/-- `AppService.RestartApp`: trigger the rolling restart, then write status
`restarting`, discarding any failure of that write. -/
def RestartApp (db : DB) (appID userID : Nat) (readOk clusterOk updOk : Bool) :
    DB × Except Err Unit × List Ev :=
  match getAppWithPermission db readOk appID userID with
  | .error e => (db, .error e, [.dbGetByIDEv appID])
  | .ok app =>
    if clusterOk then
      ((if updOk then dbUpdateStatus db appID "restarting" else db), .ok (),
        [.dbGetByIDEv appID, .clRestart app.name app.nspace,
         .dbUpdateStatusEv appID "restarting"])
    else
      (db, .error (.k8sOperation "restart"),
        [.dbGetByIDEv appID, .clRestart app.name app.nspace])

/-- `ClientGoAdapter.GetAppStatus` on a present workload object: status via
`determineStatus`, ready and desired counts copied from the object, member
summaries from the pod list. The desired-count pointer is written by every
mutating path of this system, so it is read here with default 0. -/
def adapterStatusOf (d : Deployment) (pods : List PodC) : AppStatus :=
  { status := determineStatus d,
    readyReplicas := d.readyReplicas,
    replicas := d.specReplicas.getD 0,
    pods := pods.map (fun p => (p.name, p.phase, p.ready)) }

/-- `ClientGoAdapter.GetAppStatus`: an absent workload object yields status
`unknown` with zero replicas and no error. -/
def GetAppStatus (dep : Option Deployment) (pods : List PodC) : AppStatus :=
  match dep with
  | none => { status := "unknown", readyReplicas := 0, replicas := 0, pods := [] }
  | some d => adapterStatusOf d pods

/-- `AppService.GetApp`: load and check ownership, run the reconciliation
synchronously on the query outcome `q`, then re-read and return the
record. -/
def GetApp (db : DB) (appID userID : Nat) (readOk : Bool)
    (q : Except Unit AppStatus) : DB × Except Err App × List Ev :=
  match getAppWithPermission db readOk appID userID with
  | .error e => (db, .error e, [.dbGetByIDEv appID])
  | .ok app =>
    let db1 := syncAppStatus db appID q
    match dbGetByID db1 appID with
    | some a =>
      (db1, .ok a,
        [.dbGetByIDEv appID, .clGetStatus app.name app.nspace, .dbGetByIDEv appID])
    | none =>
      (db1, .error (.database "get"),
        [.dbGetByIDEv appID, .clGetStatus app.name app.nspace, .dbGetByIDEv appID])

/-- Outcome of the adapter's namespace existence check. -/
inductive GetNsResult where
  | found
  | notFound
  | otherError
  deriving Repr, DecidableEq

/-- Outcome of the adapter's namespace create call; `alreadyExists` is the
concurrent-creator race. -/
inductive CreateNsResult where
  | ok
  | alreadyExists
  | otherError
  deriving Repr, DecidableEq

/-- A namespace object as created by the adapter. -/
structure NsObject where
  name : String
  labels : List (String × String)
  deriving Repr, DecidableEq

/-- `ClientGoAdapter.EnsureNamespace`: get the namespace; on success return
nil; on a non-NotFound get error return it; otherwise create the namespace
tagged `managed-by: astro` and return the create call's error verbatim.
The second component is the object handed to the create call, when one is
issued. -/
def EnsureNamespace (ns : String) (g : GetNsResult) (c : CreateNsResult) :
    Except String Unit × Option NsObject :=
  match g with
  | .found => (.ok (), none)
  | .otherError => (.error "get namespace failed", none)
  | .notFound =>
    let obj : NsObject := { name := ns, labels := [("managed-by", "astro")] }
    match c with
    | .ok => (.ok (), some obj)
    | .alreadyExists => (.error "namespaces already exists", some obj)
    | .otherError => (.error "create namespace failed", some obj)

/-- Adapter-side log errors: the list call failed, no member process
matched the label selector (the not-found condition), the log stream could
not be opened, or reading it failed. -/
inductive LogErr where
  | listFailed
  | noPodsFound
  | streamFailed
  | readFailed
  deriving Repr, DecidableEq

/-- The orchestrator's tail mechanism: the last `lines` lines of a log. -/
def tailLines (log : List String) (lines : Nat) : List String :=
  log.drop (log.length - lines)

/-- `ClientGoAdapter.GetAppLogs`: list the member processes matching the
workload's label selector; with zero members fail (no running pod found)
returning no text; otherwise stream up to `lines` tail lines of the first
member's log and return the captured text. -/
def GetAppLogs (pods : List PodC) (lines : Nat)
    (listOk streamOk readOk : Bool) : Except LogErr String :=
  if listOk then
    match pods with
    | [] => .error .noPodsFound
    | p :: _ =>
      if streamOk then
        if readOk then .ok (String.intercalate "\n" (tailLines p.log lines))
        else .error .readFailed
      else .error .streamFailed
  else .error .listFailed

/-- `AppService.GetAppLogs`: ownership check, then proxy to the adapter,
wrapping any adapter failure as a cluster-operation error with empty
text. -/
def ServiceGetAppLogs (db : DB) (appID userID : Nat) (readOk : Bool)
    (pods : List PodC) (lines : Nat) (listOk streamOk rdOk : Bool) :
    Except Err String :=
  match getAppWithPermission db readOk appID userID with
  | .error e => .error e
  | .ok _ =>
    match GetAppLogs pods lines listOk streamOk rdOk with
    | .error _ => .error (.k8sOperation "logs")
    | .ok s => .ok s

end Astro

namespace Astro

theorem find_map_keyed (l : List App) (id : Nat) (f : App → App)
    (hf : ∀ a, (f a).id = a.id) :
    (l.map (fun a => if a.id == id then f a else a)).find? (fun a => a.id == id)
      = (l.find? (fun a => a.id == id)).map f := by
  induction l with
  | nil => simp
  | cons a l ih =>
    simp only [List.map_cons]
    by_cases h : a.id = id
    · rw [List.find?_cons_of_pos _ (by simp [h, hf]),
        List.find?_cons_of_pos _ (by simp [h])]
      simp [h]
    · rw [List.find?_cons_of_neg _ (by simp [h]),
        List.find?_cons_of_neg _ (by simp [h]), ih]

theorem dbGetByID_updateStatus (db : DB) (id : Nat) (st : String) :
    dbGetByID (dbUpdateStatus db id st) id
      = (dbGetByID db id).map (fun a => { a with status := st }) := by
  simpa [dbGetByID, dbUpdateStatus] using
    find_map_keyed db.apps id (fun a => { a with status := st }) (fun _ => rfl)

theorem dbGetByID_updateReplicas (db : DB) (id : Nat) (n : Nat) :
    dbGetByID (dbUpdateReplicas db id n) id
      = (dbGetByID db id).map (fun a => { a with replicas := n }) := by
  simpa [dbGetByID, dbUpdateReplicas] using
    find_map_keyed db.apps id (fun a => { a with replicas := n }) (fun _ => rfl)

/-- C2: one reconciliation run. If the status query errors, the store is
untouched (and `syncAppStatus` by its type surfaces no error to any
caller); if it succeeds, the persisted status becomes the observed status
unconditionally, while the persisted replica count becomes the observed one
only when that is positive and keeps its previous value when the observed
count is zero. -/
theorem syncAppStatus_spec (db : DB) (appID : Nat) (st : AppStatus) (a : App)
    (ha : dbGetByID db appID = some a) :
    syncAppStatus db appID (.error ()) = db ∧
    dbGetByID (syncAppStatus db appID (.ok st)) appID
      = some { a with status := st.status,
                      replicas := if st.replicas > 0 then st.replicas else a.replicas } := by
  refine ⟨rfl, ?_⟩
  by_cases h : st.replicas > 0
  · simp [syncAppStatus, h, dbGetByID_updateReplicas, dbGetByID_updateStatus, ha]
  · simp [syncAppStatus, h, dbGetByID_updateStatus, ha]

/-- C2 witness: a store holding one record with 5 replicas; an errored
query leaves it alone, and a successful query observing status `running`
with 0 replicas rewrites the status but keeps the 5 replicas. -/
theorem syncAppStatus_spec_witness :
    syncAppStatus ⟨[⟨1, "web", "x:1", 5, "starting", 7, "astro-user-7"⟩], 2⟩ 1 (.error ())
        = ⟨[⟨1, "web", "x:1", 5, "starting", 7, "astro-user-7"⟩], 2⟩ ∧
    dbGetByID
        (syncAppStatus ⟨[⟨1, "web", "x:1", 5, "starting", 7, "astro-user-7"⟩], 2⟩ 1
          (.ok ⟨"running", 0, 0, []⟩)) 1
      = some ⟨1, "web", "x:1", 5, "running", 7, "astro-user-7"⟩ := by
  have h := syncAppStatus_spec ⟨[⟨1, "web", "x:1", 5, "starting", 7, "astro-user-7"⟩], 2⟩ 1
    ⟨"running", 0, 0, []⟩ ⟨1, "web", "x:1", 5, "starting", 7, "astro-user-7"⟩ (by decide)
  exact ⟨h.1, by rw [h.2]; rfl⟩

theorem dbDelete_dbCreate_fresh (db : DB) (a : App) (hwf : db.wf) :
    (dbDelete (dbCreate db a) db.nextId).apps = db.apps := by
  have h1 : ∀ x ∈ db.apps, (!(x.id == db.nextId)) = true := by
    intro x hx; simp [Nat.ne_of_lt (hwf x hx)]
  simp [dbDelete, dbCreate, List.filter_append, List.filter_eq_self.mpr h1]

/-- C3: a Create run first persists the record, with status `pending`,
before the cluster call (visible in the call trace for either cluster
outcome), and when the cluster-side workload creation fails it deletes the
just-written record and returns the wrapped cluster error, leaving no
persisted record for the (owner, name) pair. -/
theorem CreateApp_pending_then_compensate (db : DB) (req : CreateAppRequest)
    (hwf : db.wf) (hnone : dbGetByUserAndName db req.userID req.name = none) :
    (createRecord req db.nextId).status = "pending" ∧
    (∀ clusterOk,
      (CreateApp db req true clusterOk).2.2 =
        .dbGetByUserAndNameEv req.userID req.name
          :: .dbCreateEv (createRecord req db.nextId)
          :: .clCreateApp (createSpec req)
          :: (if clusterOk then [] else [.dbDeleteEv db.nextId])) ∧
    (CreateApp db req true false).2.1 = .error (.appCreateFailed "cluster") ∧
    (CreateApp db req true false).1.apps = db.apps ∧
    dbGetByUserAndName (CreateApp db req true false).1 req.userID req.name = none := by
  have happs : (CreateApp db req true false).1.apps = db.apps := by
    simp only [CreateApp, hnone, if_true, if_false, Bool.false_eq_true]
    exact dbDelete_dbCreate_fresh db _ hwf
  refine ⟨rfl, ?_, ?_, happs, ?_⟩
  · intro clusterOk
    cases clusterOk <;> simp [CreateApp, hnone, createRecord]
  · simp [CreateApp, hnone]
  · unfold dbGetByUserAndName at hnone ⊢
    rw [happs]
    exact hnone

/-- C3 witness: creating `web` for owner 7 into an empty store with a
failing cluster step. -/
theorem CreateApp_pending_then_compensate_witness :
    (createRecord ⟨"web", "x:1", 3, 0, 7⟩ (0 : Nat)).status = "pending" ∧
    (∀ clusterOk,
      (CreateApp ⟨[], 0⟩ ⟨"web", "x:1", 3, 0, 7⟩ true clusterOk).2.2 =
        .dbGetByUserAndNameEv 7 "web"
          :: .dbCreateEv (createRecord ⟨"web", "x:1", 3, 0, 7⟩ 0)
          :: .clCreateApp (createSpec ⟨"web", "x:1", 3, 0, 7⟩)
          :: (if clusterOk then [] else [.dbDeleteEv 0])) ∧
    (CreateApp ⟨[], 0⟩ ⟨"web", "x:1", 3, 0, 7⟩ true false).2.1
        = .error (.appCreateFailed "cluster") ∧
    (CreateApp ⟨[], 0⟩ ⟨"web", "x:1", 3, 0, 7⟩ true false).1.apps = [] ∧
    dbGetByUserAndName (CreateApp ⟨[], 0⟩ ⟨"web", "x:1", 3, 0, 7⟩ true false).1 7 "web"
        = none :=
  CreateApp_pending_then_compensate ⟨[], 0⟩ ⟨"web", "x:1", 3, 0, 7⟩
    (by intro a ha; cases ha) rfl

/-- C4: Delete issues the cluster deletion first and deletes the persisted
record only on its success; when the cluster step fails, a typed error is
returned, the store is untouched and the record is still retrievable. -/
theorem DeleteApp_cluster_first (db : DB) (appID userID : Nat) (a : App)
    (ha : dbGetByID db appID = some a) (hOwn : a.userID = userID) :
    DeleteApp db appID userID true false true =
      (db, .error (.k8sOperation "delete"),
        [.dbGetByIDEv appID, .clDeleteApp a.name a.nspace]) ∧
    dbGetByID (DeleteApp db appID userID true false true).1 appID = some a ∧
    DeleteApp db appID userID true true true =
      (dbDelete db appID, .ok (),
        [.dbGetByIDEv appID, .clDeleteApp a.name a.nspace, .dbDeleteEv appID]) := by
  refine ⟨?_, ?_, ?_⟩ <;> simp [DeleteApp, getAppWithPermission, ha, hOwn]

/-- C4 witness: a one-record store owned by user 7; the failing-cluster
Delete leaves the record in place, the succeeding one removes it. -/
theorem DeleteApp_cluster_first_witness :
    DeleteApp ⟨[⟨1, "web", "x:1", 3, "running", 7, "astro-user-7"⟩], 2⟩ 1 7 true false true =
      (⟨[⟨1, "web", "x:1", 3, "running", 7, "astro-user-7"⟩], 2⟩,
        .error (.k8sOperation "delete"),
        [.dbGetByIDEv 1, .clDeleteApp "web" "astro-user-7"]) ∧
    dbGetByID (DeleteApp ⟨[⟨1, "web", "x:1", 3, "running", 7, "astro-user-7"⟩], 2⟩
        1 7 true false true).1 1
      = some ⟨1, "web", "x:1", 3, "running", 7, "astro-user-7"⟩ ∧
    DeleteApp ⟨[⟨1, "web", "x:1", 3, "running", 7, "astro-user-7"⟩], 2⟩ 1 7 true true true =
      (dbDelete ⟨[⟨1, "web", "x:1", 3, "running", 7, "astro-user-7"⟩], 2⟩ 1, .ok (),
        [.dbGetByIDEv 1, .clDeleteApp "web" "astro-user-7", .dbDeleteEv 1]) :=
  DeleteApp_cluster_first ⟨[⟨1, "web", "x:1", 3, "running", 7, "astro-user-7"⟩], 2⟩
    1 7 ⟨1, "web", "x:1", 3, "running", 7, "astro-user-7"⟩ rfl rfl

/-- C5: after a successful Stop the persisted record reads `stopped` with 0
replicas, and a Get that synchronously reconciles still returns `stopped`
with 0 replicas, whether the cluster query fails or returns the observed
state of the workload Stop scaled to zero, for any ready count the cluster
reports. -/
theorem StopApp_then_GetApp_stopped (db : DB) (appID userID : Nat) (a : App)
    (ha : dbGetByID db appID = some a) (hOwn : a.userID = userID) :
    (StopApp db appID userID true true true true).2.1 = .ok () ∧
    dbGetByID (StopApp db appID userID true true true true).1 appID
      = some { a with status := "stopped", replicas := 0 } ∧
    (∀ q : Except Unit AppStatus,
      (q = .error () ∨
        ∃ (rr : Nat) (pods : List PodC),
          q = .ok (GetAppStatus (some ⟨some 0, rr⟩) pods)) →
      ∃ a', (GetApp (StopApp db appID userID true true true true).1
              appID userID true q).2.1 = .ok a' ∧
        a'.status = "stopped" ∧ a'.replicas = 0) := by
  have hdb1 : (StopApp db appID userID true true true true).1
      = dbUpdateReplicas (dbUpdateStatus db appID "stopped") appID 0 := by
    simp [StopApp, getAppWithPermission, ha, hOwn]
  have hget1 : dbGetByID (StopApp db appID userID true true true true).1 appID
      = some { a with status := "stopped", replicas := 0 } := by
    rw [hdb1, dbGetByID_updateReplicas, dbGetByID_updateStatus, ha]; rfl
  refine ⟨by simp [StopApp, getAppWithPermission, ha, hOwn], hget1, ?_⟩
  intro q hq
  rcases hq with rfl | ⟨rr, pods, rfl⟩
  · exact ⟨{ a with status := "stopped", replicas := 0 },
      by simp [GetApp, getAppWithPermission, hget1, hOwn, syncAppStatus], rfl, rfl⟩
  · refine ⟨{ a with status := "stopped", replicas := 0 }, ?_, rfl, rfl⟩
    have hst : GetAppStatus (some ⟨some 0, rr⟩) pods
        = { status := "stopped", readyReplicas := rr, replicas := 0,
            pods := pods.map (fun p => (p.name, p.phase, p.ready)) } := rfl
    simp [GetApp, getAppWithPermission, hget1, hOwn, hst, syncAppStatus,
      dbGetByID_updateStatus]

/-- C5 witness: a running 3-replica record owned by user 7 is stopped and
then fetched, once with a failing query and once with the cluster reporting
the scaled-to-zero workload with 2 still-terminating ready members. -/
theorem StopApp_then_GetApp_stopped_witness :
    (StopApp ⟨[⟨1, "web", "x:1", 3, "running", 7, "astro-user-7"⟩], 2⟩ 1 7
        true true true true).2.1 = .ok () ∧
    (∃ a', (GetApp (StopApp ⟨[⟨1, "web", "x:1", 3, "running", 7, "astro-user-7"⟩], 2⟩
          1 7 true true true true).1 1 7 true (.error ())).2.1 = .ok a' ∧
      a'.status = "stopped" ∧ a'.replicas = 0) ∧
    (∃ a', (GetApp (StopApp ⟨[⟨1, "web", "x:1", 3, "running", 7, "astro-user-7"⟩], 2⟩
          1 7 true true true true).1 1 7 true
          (.ok (GetAppStatus (some ⟨some 0, 2⟩) []))).2.1 = .ok a' ∧
      a'.status = "stopped" ∧ a'.replicas = 0) := by
  have h := StopApp_then_GetApp_stopped
    ⟨[⟨1, "web", "x:1", 3, "running", 7, "astro-user-7"⟩], 2⟩ 1 7
    ⟨1, "web", "x:1", 3, "running", 7, "astro-user-7"⟩ rfl rfl
  exact ⟨h.1, h.2.2 (.error ()) (Or.inl rfl),
    h.2.2 (.ok (GetAppStatus (some ⟨some 0, 2⟩) [])) (Or.inr ⟨2, [], rfl⟩)⟩

/-- C8: the replica target of the scale call Start issues equals the
persisted desired count when positive and 1 when that count is 0, as read
off the call trace; in particular a record persisted with 0 replicas is
scaled to exactly 1. -/
theorem StartApp_scale_target (db : DB) (appID userID : Nat) (a : App)
    (ha : dbGetByID db appID = some a) (hOwn : a.userID = userID) :
    (∀ scaleOk updOk,
      (StartApp db appID userID true scaleOk updOk).2.2 =
        .dbGetByIDEv appID
          :: .clScaleApp a.name a.nspace (if a.replicas = 0 then 1 else a.replicas)
          :: (if scaleOk then [.dbUpdateStatusEv appID "starting"] else [])) ∧
    (a.replicas = 0 → ∀ scaleOk updOk,
      ∃ tr, (StartApp db appID userID true scaleOk updOk).2.2 =
        .dbGetByIDEv appID :: .clScaleApp a.name a.nspace 1 :: tr) := by
  have htr : ∀ scaleOk updOk,
      (StartApp db appID userID true scaleOk updOk).2.2 =
        .dbGetByIDEv appID
          :: .clScaleApp a.name a.nspace (if a.replicas = 0 then 1 else a.replicas)
          :: (if scaleOk then [.dbUpdateStatusEv appID "starting"] else []) := by
    intro scaleOk updOk
    cases scaleOk <;> simp [StartApp, getAppWithPermission, ha, hOwn]
  refine ⟨htr, ?_⟩
  intro h0 scaleOk updOk
  refine ⟨(if scaleOk then [.dbUpdateStatusEv appID "starting"] else []), ?_⟩
  rw [htr scaleOk updOk, h0]
  simp

/-- C8 witness: a record persisted with 0 replicas is scaled to exactly 1
by Start. -/
theorem StartApp_scale_target_witness :
    (∃ tr, (StartApp ⟨[⟨1, "web", "x:1", 0, "stopped", 7, "astro-user-7"⟩], 2⟩ 1 7
        true true true).2.2 =
      .dbGetByIDEv 1 :: .clScaleApp "web" "astro-user-7" 1 :: tr) :=
  (StartApp_scale_target ⟨[⟨1, "web", "x:1", 0, "stopped", 7, "astro-user-7"⟩], 2⟩
    1 7 ⟨1, "web", "x:1", 0, "stopped", 7, "astro-user-7"⟩ rfl rfl).2 rfl true true

/-- C9 counterexample: in a one-record store, Stop whose cluster scale
succeeded but whose record-store status and replica writes both failed
still reports success, leaving the store untouched — the write failures are
silently discarded, contradicting the claim that every synchronous
record-store failure is surfaced as a typed error. -/
theorem StopApp_silent_write_failure :
    (StopApp ⟨[⟨1, "web", "x:1", 3, "running", 7, "astro-user-7"⟩], 2⟩ 1 7
        true true false false).2.1 = .ok () ∧
    (StopApp ⟨[⟨1, "web", "x:1", 3, "running", 7, "astro-user-7"⟩], 2⟩ 1 7
        true true false false).1
      = ⟨[⟨1, "web", "x:1", 3, "running", 7, "astro-user-7"⟩], 2⟩ := ⟨rfl, rfl⟩

/-- C9 as amended: Start, Stop and Restart surface the record-store read
failure and the cluster-call failure as typed errors, but once the cluster
call has succeeded they report success regardless of whether the subsequent
record-store status/replica writes fail — those write failures are
discarded. -/
theorem lifecycle_error_surfacing (db : DB) (appID userID : Nat)
    (a : App) (ha : dbGetByID db appID = some a) (hOwn : a.userID = userID) :
    (∀ so u1 u2, (StopApp db appID userID false so u1 u2).2.1
      = .error (.database "read")) ∧
    (∀ so u, (StartApp db appID userID false so u).2.1 = .error (.database "read")) ∧
    (∀ co u, (RestartApp db appID userID false co u).2.1 = .error (.database "read")) ∧
    (∀ u1 u2, (StopApp db appID userID true false u1 u2).2.1
      = .error (.k8sOperation "scale")) ∧
    (∀ u, (StartApp db appID userID true false u).2.1 = .error (.k8sOperation "scale")) ∧
    (∀ u, (RestartApp db appID userID true false u).2.1
      = .error (.k8sOperation "restart")) ∧
    (∀ u1 u2, (StopApp db appID userID true true u1 u2).2.1 = .ok ()) ∧
    (∀ u, (StartApp db appID userID true true u).2.1 = .ok ()) ∧
    (∀ u, (RestartApp db appID userID true true u).2.1 = .ok ()) := by
  refine ⟨?_, ?_, ?_, ?_, ?_, ?_, ?_, ?_, ?_⟩ <;> intros <;>
    simp [StopApp, StartApp, RestartApp, getAppWithPermission, ha, hOwn]

/-- C9 amended-claim witness: the three behaviours at a concrete
one-record store. -/
theorem lifecycle_error_surfacing_witness :
    (StopApp ⟨[⟨1, "web", "x:1", 3, "running", 7, "astro-user-7"⟩], 2⟩ 1 7
        false true true true).2.1 = .error (.database "read") ∧
    (StartApp ⟨[⟨1, "web", "x:1", 3, "running", 7, "astro-user-7"⟩], 2⟩ 1 7
        true false true).2.1 = .error (.k8sOperation "scale") ∧
    (RestartApp ⟨[⟨1, "web", "x:1", 3, "running", 7, "astro-user-7"⟩], 2⟩ 1 7
        true true false).2.1 = .ok () := by
  have h := lifecycle_error_surfacing
    ⟨[⟨1, "web", "x:1", 3, "running", 7, "astro-user-7"⟩], 2⟩ 1 7
    ⟨1, "web", "x:1", 3, "running", 7, "astro-user-7"⟩ rfl rfl
  exact ⟨h.1 true true true, h.2.2.2.2.1 true, h.2.2.2.2.2.2.2.2 false⟩

/-- C10: a successful Start mutates the store exactly by the status-column
update to `starting`: the persisted replica count is untouched, and it
becomes the observed count only once a reconciliation sees a strictly
positive observed count, an observed zero leaving it unchanged. -/
theorem StartApp_replicas_frame (db : DB) (appID userID : Nat) (a : App)
    (ha : dbGetByID db appID = some a) (hOwn : a.userID = userID) :
    (StartApp db appID userID true true true).1
      = dbUpdateStatus db appID "starting" ∧
    dbGetByID (StartApp db appID userID true true true).1 appID
      = some { a with status := "starting" } ∧
    (∀ st : AppStatus, st.replicas = 0 →
      dbGetByID (syncAppStatus (StartApp db appID userID true true true).1
          appID (.ok st)) appID
        = some { a with status := st.status }) ∧
    (∀ st : AppStatus, st.replicas > 0 →
      dbGetByID (syncAppStatus (StartApp db appID userID true true true).1
          appID (.ok st)) appID
        = some { a with status := st.status, replicas := st.replicas }) := by
  have hdb1 : (StartApp db appID userID true true true).1
      = dbUpdateStatus db appID "starting" := by
    simp [StartApp, getAppWithPermission, ha, hOwn]
  have hget1 : dbGetByID (StartApp db appID userID true true true).1 appID
      = some { a with status := "starting" } := by
    rw [hdb1, dbGetByID_updateStatus, ha]; rfl
  refine ⟨hdb1, hget1, ?_, ?_⟩
  · intro st h0
    simp [syncAppStatus, h0, dbGetByID_updateStatus, hget1]
  · intro st hp
    simp [syncAppStatus, hp, dbGetByID_updateReplicas, dbGetByID_updateStatus, hget1]

/-- C10 witness: Start on a record persisted with 0 replicas leaves the
persisted count at 0; a reconciliation observing 0 keeps it at 0 and one
observing 2 raises it to 2. -/
theorem StartApp_replicas_frame_witness :
    dbGetByID (StartApp ⟨[⟨1, "web", "x:1", 0, "stopped", 7, "astro-user-7"⟩], 2⟩
        1 7 true true true).1 1
      = some ⟨1, "web", "x:1", 0, "starting", 7, "astro-user-7"⟩ ∧
    dbGetByID (syncAppStatus (StartApp ⟨[⟨1, "web", "x:1", 0, "stopped", 7,
        "astro-user-7"⟩], 2⟩ 1 7 true true true).1 1
        (.ok ⟨"pending", 0, 0, []⟩)) 1
      = some ⟨1, "web", "x:1", 0, "pending", 7, "astro-user-7"⟩ ∧
    dbGetByID (syncAppStatus (StartApp ⟨[⟨1, "web", "x:1", 0, "stopped", 7,
        "astro-user-7"⟩], 2⟩ 1 7 true true true).1 1
        (.ok ⟨"running", 2, 2, []⟩)) 1
      = some ⟨1, "web", "x:1", 2, "running", 7, "astro-user-7"⟩ := by
  have h := StartApp_replicas_frame
    ⟨[⟨1, "web", "x:1", 0, "stopped", 7, "astro-user-7"⟩], 2⟩ 1 7
    ⟨1, "web", "x:1", 0, "stopped", 7, "astro-user-7"⟩ rfl rfl
  exact ⟨h.2.1, h.2.2.1 ⟨"pending", 0, 0, []⟩ rfl, h.2.2.2 ⟨"running", 2, 2, []⟩ (by decide)⟩

/-- C6 counterexample: when the namespace does not exist and the create
call loses the race to a concurrent creator (already-exists), the adapter
returns the create call's error verbatim — the race is surfaced, not
swallowed. -/
theorem EnsureNamespace_race_not_swallowed :
    (EnsureNamespace "astro-user-7" .notFound .alreadyExists).1
      = .error "namespaces already exists" := rfl

/-- C6 as amended: EnsureNamespace is a silent no-op when the namespace
already exists, and otherwise creates it tagged with the fixed ownership
label; but every failure of the create sub-step, including the
already-exists outcome of a lost creation race, is returned to the caller
rather than swallowed. -/
theorem EnsureNamespace_spec (ns : String) :
    (∀ c, EnsureNamespace ns .found c = (.ok (), none)) ∧
    (EnsureNamespace ns .notFound .ok
      = (.ok (), some ⟨ns, [("managed-by", "astro")]⟩)) ∧
    (∀ c, c ≠ CreateNsResult.ok →
      ∃ msg, (EnsureNamespace ns .notFound c).1 = .error msg) := by
  refine ⟨fun _ => rfl, rfl, ?_⟩
  intro c hc
  cases c
  · exact absurd rfl hc
  · exact ⟨_, rfl⟩
  · exact ⟨_, rfl⟩

/-- C6 amended-claim witness: at the namespace of user 7, the no-op, the
labelled create, and the surfaced race error. -/
theorem EnsureNamespace_spec_witness :
    EnsureNamespace "astro-user-7" .found .ok = (.ok (), none) ∧
    EnsureNamespace "astro-user-7" .notFound .ok
      = (.ok (), some ⟨"astro-user-7", [("managed-by", "astro")]⟩) ∧
    (∃ msg, (EnsureNamespace "astro-user-7" .notFound .alreadyExists).1
      = .error msg) :=
  ⟨(EnsureNamespace_spec "astro-user-7").1 .ok,
   (EnsureNamespace_spec "astro-user-7").2.1,
   (EnsureNamespace_spec "astro-user-7").2.2 .alreadyExists (by decide)⟩

/-- C7: fetching logs with zero matching member processes fails with the
adapter's not-found error and never yields log text (the service layer
turns it into a wrapped cluster-operation error with empty text); with at
least one member, the first member is selected and its last `lines` log
lines — never more than `lines` — are returned. -/
theorem GetAppLogs_notFound_and_tail (lines : Nat) :
    GetAppLogs [] lines true true true = .error .noPodsFound ∧
    (∀ (b1 b2 b3 : Bool) (s : String), GetAppLogs [] lines b1 b2 b3 ≠ .ok s) ∧
    (∀ (db : DB) (appID userID : Nat) (a : App),
      dbGetByID db appID = some a → a.userID = userID →
      ServiceGetAppLogs db appID userID true [] lines true true true
        = .error (.k8sOperation "logs")) ∧
    (∀ (p : PodC) (rest : List PodC),
      GetAppLogs (p :: rest) lines true true true
        = .ok (String.intercalate "\n" (tailLines p.log lines)) ∧
      (tailLines p.log lines).length ≤ lines) := by
  refine ⟨rfl, ?_, ?_, ?_⟩
  · intro b1 b2 b3 s
    cases b1 <;> simp [GetAppLogs]
  · intro db appID userID a ha hOwn
    simp [ServiceGetAppLogs, getAppWithPermission, ha, hOwn, GetAppLogs]
  · intro p rest
    refine ⟨rfl, ?_⟩
    simp only [tailLines, List.length_drop]
    omega

/-- C7 witness: zero members give the not-found error at both layers, and a
single member with a three-line log tailed to 2 lines gives its last two
lines. -/
theorem GetAppLogs_notFound_and_tail_witness :
    GetAppLogs [] 2 true true true = .error .noPodsFound ∧
    ServiceGetAppLogs ⟨[⟨1, "web", "x:1", 3, "running", 7, "astro-user-7"⟩], 2⟩
        1 7 true [] 2 true true true = .error (.k8sOperation "logs") ∧
    GetAppLogs [⟨"web-abc", "Running", true, ["l1", "l2", "l3"]⟩] 2 true true true
      = .ok "l2\nl3" := by
  have h := GetAppLogs_notFound_and_tail 2
  refine ⟨h.1, h.2.2.1 ⟨[⟨1, "web", "x:1", 3, "running", 7, "astro-user-7"⟩], 2⟩
    1 7 ⟨1, "web", "x:1", 3, "running", 7, "astro-user-7"⟩ rfl rfl, ?_⟩
  have h3 := (h.2.2.2 ⟨"web-abc", "Running", true, ["l1", "l2", "l3"]⟩ []).1
  rw [h3]
  rfl

/-- C1: the status derivation, as a pure function of desired replica count D
(treated as 0 when the pointer is unset) and ready replica count R, returns
`stopped` whenever D = 0 or the pointer is unset, regardless of R;
`running` when D > 0 and R = D; `pending` when D > 0 and R = 0; and
`starting` when 0 < R < D. The D = 0 check dominates all the others. -/
theorem determineStatus_cases (d : Option Nat) (r : Nat) :
    ((d = none ∨ d = some 0) → determineStatus ⟨d, r⟩ = "stopped") ∧
    (∀ n, d = some n → n > 0 → r = n → determineStatus ⟨d, r⟩ = "running") ∧
    (∀ n, d = some n → n > 0 → r = 0 → determineStatus ⟨d, r⟩ = "pending") ∧
    (∀ n, d = some n → 0 < r → r < n → determineStatus ⟨d, r⟩ = "starting") := by
  refine ⟨?_, ?_, ?_, ?_⟩
  · rintro (rfl | rfl) <;> simp [determineStatus]
  · rintro n rfl hn rfl
    simp only [determineStatus]
    rw [if_neg (Nat.pos_iff_ne_zero.mp hn)]
    simp
  · rintro n rfl hn rfl
    simp only [determineStatus]
    rw [if_neg (Nat.pos_iff_ne_zero.mp hn),
      if_neg (fun h => Nat.pos_iff_ne_zero.mp hn h.symm)]
    simp
  · rintro n rfl hr hrn
    simp only [determineStatus]
    rw [if_neg (by omega : ¬ n = 0), if_neg (by omega : ¬ r = n),
      if_neg (by omega : ¬ r = 0)]

/-- C1 witness: the four cases evaluated at concrete desired/ready pairs
(the spec's Scenario 2 values among them). -/
theorem determineStatus_cases_witness :
    determineStatus ⟨some 0, 2⟩ = "stopped" ∧
    determineStatus ⟨some 3, 3⟩ = "running" ∧
    determineStatus ⟨some 3, 0⟩ = "pending" ∧
    determineStatus ⟨some 3, 1⟩ = "starting" :=
  ⟨(determineStatus_cases (some 0) 2).1 (Or.inr rfl),
   (determineStatus_cases (some 3) 3).2.1 3 rfl (by decide) rfl,
   (determineStatus_cases (some 3) 0).2.2.1 3 rfl (by decide) rfl,
   (determineStatus_cases (some 3) 1).2.2.2 3 rfl (by decide) (by decide)⟩

end Astro
